import Mathlib

/-!
Verification of the symptom-selection and request-validation logic of the
farm-disease-prediction web client.

The definitions below are shallow embeddings of the JavaScript source:

* `jsIncludes`           — `String.prototype.includes` (substring containment)
* `filteredSymptoms`     — the `filteredSymptoms` memo in `src/frontend/src/App.jsx`
* `selectorFiltered`     — the `filtered` memo in `src/frontend/src/components/SymptomSelector.jsx`
* `toggle`               — the `toggle` handler in `App.jsx` (selection plus error notice)
* `selectorToggle`       — the `toggle` handler in `SymptomSelector.jsx`
* `onPredictRun`         — the `onPredict` handler in `App.jsx`, with the network
                           call's outcome passed in and the list of issued
                           requests returned alongside the final state
* `predictButtonClick`   — `onPredictRun` guarded by `disabled={loading}` on the
                           Predict button in `App.jsx`
* `getSymptoms`          — `getSymptoms` in the api service module
* `riskBadgeClass`       — the `RiskBadge` classifier in `App.jsx`
* `riskColor`            — `riskColor` in `src/frontend/src/components/PredictionResult.jsx`
-/

/-- Does `l` start with `pat`?  Model of the prefix step of JS substring search. -/
def listStartsWith : List Char → List Char → Bool
  | [], _ => true
  | _ :: _, [] => false
  | p :: ps, c :: cs => p == c && listStartsWith ps cs

/-- Does `l` contain `pat` as a contiguous subsequence? -/
def listContainsSeq (pat : List Char) : List Char → Bool
  | [] => pat.isEmpty
  | c :: cs => listStartsWith pat (c :: cs) || listContainsSeq pat cs

/-- Model of JavaScript `s.includes(sub)`: substring containment. -/
def jsIncludes (s sub : String) : Bool :=
  listContainsSeq sub.data s.data

/-- Model of JavaScript `s.toLowerCase()` (characterwise lowering; the source
strings are ASCII plus Telugu, which has no case). -/
def strToLower (s : String) : String :=
  ⟨s.data.map Char.toLower⟩

/-- Model of JavaScript `s.trim()`: strip leading and trailing whitespace. -/
def strTrim (s : String) : String :=
  ⟨(((s.data.dropWhile Char.isWhitespace).reverse).dropWhile Char.isWhitespace).reverse⟩

/-- Model of JavaScript falsiness of a string (`!q`): the string is empty. -/
def strIsEmpty (s : String) : Bool :=
  s.data.isEmpty

/-- A catalog entry: `{ en, te, display }` as loaded from `GET /symptoms`.
`en` doubles as the stable identifier (it keys the selection and the React lists). -/
structure Symptom where
  en : String
  te : String
  display : String
deriving DecidableEq

/-- `filteredSymptoms` memo in `App.jsx`:
`q = query.trim().toLowerCase(); if (!q) return allSymptoms;
return allSymptoms.filter(s => s.display.toLowerCase().includes(q))`. -/
def filteredSymptoms (allSymptoms : List Symptom) (query : String) : List Symptom :=
  let q := strToLower (strTrim query)
  if strIsEmpty q then allSymptoms
  else allSymptoms.filter (fun s => jsIncludes (strToLower s.display) q)

/-- `filtered` memo in `SymptomSelector.jsx`: matches the combined display label,
the identifier and the Telugu label. -/
def selectorFiltered (allSymptoms : List Symptom) (query : String) : List Symptom :=
  let q := strToLower (strTrim query)
  if strIsEmpty q then allSymptoms
  else allSymptoms.filter (fun s =>
    jsIncludes (strToLower s.display) q || jsIncludes (strToLower s.en) q || jsIncludes (strToLower s.te) q)

/-- The matching predicate of the specification: the identifier or either
display label contains the query, case-insensitively. -/
def claimMatches (s : Symptom) (q : String) : Bool :=
  jsIncludes (strToLower s.en) q || jsIncludes (strToLower s.te) q || jsIncludes (strToLower s.display) q

/-- The filter as the specification words it: the subsequence of symptoms
satisfying `claimMatches`, the full catalog on an empty or whitespace query. -/
def specFilter (L : List Symptom) (query : String) : List Symptom :=
  let q := strToLower (strTrim query)
  if strIsEmpty q then L
  else L.filter (fun s => claimMatches s q)

/-- The bounds-violation notice raised by `toggle` in `App.jsx`. -/
def maxSymptomsMsg : String := "You can select maximum 8 symptoms."

/-- `toggle` in `App.jsx`: remove if present; otherwise add unless the
selection already has 8 entries, in which case raise the notice. Returns the
new selection together with the notice (if any). -/
def toggle (prev : List String) (en : String) : List String × Option String :=
  if prev.contains en then (prev.filter (fun x => x != en), none)
  else if 8 ≤ prev.length then (prev, some maxSymptomsMsg)
  else (prev ++ [en], none)

/-- `toggle` in `SymptomSelector.jsx`: same selection transition, but silently
returns at the bound (the blocked checkbox is disabled and captioned instead). -/
def selectorToggle (disabled : Bool) (selected : List String) (en : String)
    (max : Nat) : List String :=
  if disabled then selected
  else if selected.contains en then selected.filter (fun x => x != en)
  else if max ≤ selected.length then selected
  else selected ++ [en]

/-- Run a sequence of `App.jsx` toggles from a starting selection. -/
def runTogglesFrom (sel : List String) (ids : List String) : List String :=
  ids.foldl (fun s i => (toggle s i).1) sel

/-- Run a sequence of `App.jsx` toggles from the empty selection. -/
def runToggles (ids : List String) : List String :=
  runTogglesFrom [] ids

/-- A bilingual labelled value `{ en, te, display }` from the prediction response. -/
structure Labeled where
  en : String
  te : String
  display : String
deriving DecidableEq

/-- One row of `result.predictions`. -/
structure Prediction where
  disease : Labeled
  probability_percent : ℚ
deriving DecidableEq

/-- `result.risk`. -/
structure Risk where
  overall : Labeled
  explanation : String
deriving DecidableEq

/-- The `/predict` response shape consumed by `App.jsx` and `PredictionResult.jsx`. -/
structure PredictionResult where
  animal : Labeled
  symptoms : List Labeled
  predictions : List Prediction
  risk : Risk
  prevention : Option Labeled
  precautions : Option Labeled
deriving DecidableEq

/-- The `/predict` request body assembled by `onPredict`. -/
structure PredictRequest where
  animal : String
  symptoms : List String
  top_k : Nat
deriving DecidableEq

/-- The `App` component state touched by `onPredict`. -/
structure AppState where
  animal : String
  selected : List String
  result : Option PredictionResult
  error : String
  loading : Bool
deriving DecidableEq

/-- The validation message set by `onPredict` for undersized selections. -/
def minSymptomsMsg : String := "Select at least 3 symptoms."

/-- The generic failure message set by `onPredict` when `predict` rejects. -/
def predictFailedMsg : String := "Prediction failed. Check backend is running on port 8000."

/-- `onPredict` in `App.jsx`.  The outcome of the awaited `predict` call is an
argument (`Except Unit PredictionResult`: any transport, HTTP or parse failure
collapses to the single untyped `catch`).  Returns the final state and the
list of `/predict` requests issued during the run. -/
def onPredictRun (s : AppState) (response : Except Unit PredictionResult) :
    AppState × List PredictRequest :=
  let s1 : AppState := { s with error := "", result := none }
  if s1.selected.length < 3 then
    ({ s1 with error := minSymptomsMsg }, [])
  else
    let req : PredictRequest := { animal := s.animal, symptoms := s.selected, top_k := 3 }
    match response with
    | Except.ok data => ({ s1 with result := some data, loading := false }, [req])
    | Except.error _ => ({ s1 with error := predictFailedMsg, loading := false }, [req])

/-- Pressing the Predict button: the button carries `disabled={loading}`, so a
click while a request is in flight never reaches `onPredict`. -/
def predictButtonClick (s : AppState) (response : Except Unit PredictionResult) :
    AppState × List PredictRequest :=
  if s.loading then (s, [])
  else onPredictRun s response

/-- The parsed body of a 2xx `GET /symptoms` response; the `symptoms` key may
be absent. -/
structure SymptomsBody where
  symptoms : Option (List Symptom)
deriving DecidableEq

/-- `getSymptoms` in the api service module: `r.data?.symptoms ?? []`
(`data` itself may be empty/absent). -/
def getSymptoms (data : Option SymptomsBody) : List Symptom :=
  match data with
  | none => []
  | some b => b.symptoms.getD []

/-- The `RiskBadge` classifier in `App.jsx`. -/
def riskBadgeClass (label : String) : String :=
  let isHigh := jsIncludes (strToLower label) "high risk"
  let isMed := jsIncludes (strToLower label) "medium risk"
  if isHigh then "badge badge-high"
  else if isMed then "badge badge-med"
  else "badge badge-low"

/-- `riskColor` in `PredictionResult.jsx`. -/
def riskColor (text : String) : String :=
  let t := strToLower text
  if jsIncludes t "high" then "error"
  else if jsIncludes t "medium" then "warning"
  else if jsIncludes t "low" then "success"
  else "default"

example : jsIncludes "high risk / x" "high risk" = true := by decide
example : jsIncludes "fvr" "fever" = false := by decide
example : riskBadgeClass "High Risk / X" = "badge badge-high" := by decide
example : riskColor "" = "default" := by decide
example : toggle ["a", "b"] "a" = (["b"], none) := by decide
example : toggle ["a", "b"] "c" = (["a", "b", "c"], none) := by decide
example :
    toggle ["a", "b", "c", "d", "e", "f", "g", "h"] "i"
      = (["a", "b", "c", "d", "e", "f", "g", "h"], some maxSymptomsMsg) := by decide
example : filteredSymptoms [⟨"fever", "x", "Fvr"⟩] "fever" = [] := by decide
example : specFilter [⟨"fever", "x", "Fvr"⟩] "fever" = [⟨"fever", "x", "Fvr"⟩] := by decide
example : getSymptoms none = [] := by decide

/-! ## Helper lemmas -/

theorem toggle_preserves (sel : List String) (i : String)
    (h8 : sel.length ≤ 8) (hnd : sel.Nodup) :
    (toggle sel i).1.length ≤ 8 ∧ (toggle sel i).1.Nodup := by
  unfold toggle
  by_cases hc : sel.contains i = true
  · rw [if_pos hc]
    exact ⟨le_trans (List.length_filter_le _ _) h8, hnd.filter _⟩
  · rw [if_neg hc]
    by_cases hl : 8 ≤ sel.length
    · rw [if_pos hl]
      exact ⟨h8, hnd⟩
    · rw [if_neg hl]
      have hmem : i ∉ sel := by simpa using hc
      constructor
      · simp only [List.length_append, List.length_singleton]
        omega
      · simp [List.nodup_append, hnd, hmem]

theorem runTogglesFrom_invariant (ids : List String) :
    ∀ sel : List String, sel.length ≤ 8 → sel.Nodup →
      (runTogglesFrom sel ids).length ≤ 8 ∧ (runTogglesFrom sel ids).Nodup := by
  induction ids with
  | nil => intro sel h1 h2; exact ⟨h1, h2⟩
  | cons i rest ih =>
    intro sel h1 h2
    have h := toggle_preserves sel i h1 h2
    simpa [runTogglesFrom, List.foldl_cons] using ih _ h.1 h.2

theorem length_filter_ne_lt (sel : List String) (i : String) (hmem : i ∈ sel) :
    (sel.filter (fun x => x != i)).length < sel.length :=
  List.length_filter_lt_length_iff_exists.mpr ⟨i, hmem, by simp⟩

/-! ## Claims -/

/-- C1: in every state where a prediction request is in flight
(`loading = true`), pressing Predict is rejected: the state is unchanged and
no network call is issued, so at most one request is outstanding. -/
theorem c1_single_flight (s : AppState) (response : Except Unit PredictionResult)
    (h : s.loading = true) :
    predictButtonClick s response = (s, []) := by
  simp [predictButtonClick, h]

theorem c1_single_flight_witness :
    predictButtonClick
      { animal := "Cow", selected := ["fever", "cough", "limp"],
        result := none, error := "", loading := true } (Except.error ()) =
      ({ animal := "Cow", selected := ["fever", "cough", "limp"],
         result := none, error := "", loading := true }, []) :=
  c1_single_flight _ _ rfl

/-- A sample prediction result, used to exhibit a previously displayed result. -/
def sampleResult : PredictionResult where
  animal := ⟨"Cow", "aavu", "Cow / aavu"⟩
  symptoms := [⟨"fever", "jvaram", "Fever / jvaram"⟩]
  predictions := [⟨⟨"Foot Rot", "fr", "Foot Rot / fr"⟩, (72 : ℚ)⟩]
  risk := ⟨⟨"High Risk", "hr", "High Risk / hr"⟩, "several matching symptoms"⟩
  prevention := none
  precautions := none

/-- A state holding a prior result with only two symptoms selected. -/
def c2State : AppState where
  animal := "Cow"
  selected := ["fever", "cough"]
  result := some sampleResult
  error := ""
  loading := false

/-- C2 fails as stated: an undersized submit does raise the validation error
and sends nothing, but it does NOT leave the prior result untouched — the
handler clears `result` before validating. -/
theorem c2_counterexample :
    (onPredictRun c2State (Except.error ())).2 = [] ∧
    (onPredictRun c2State (Except.error ())).1.error = minSymptomsMsg ∧
    (onPredictRun c2State (Except.error ())).1.result ≠ c2State.result := by
  refine ⟨?_, ?_, ?_⟩ <;> simp [onPredictRun, c2State]

/-- C2 (amended): an undersized submit raises the validation error, sends no
request and leaves `loading` and the selection unchanged, but it clears the
prior result and replaces the prior error message. -/
theorem c2_validation (s : AppState) (response : Except Unit PredictionResult)
    (h : s.selected.length < 3) :
    onPredictRun s response =
      ({ s with error := minSymptomsMsg, result := none }, []) := by
  simp [onPredictRun, h]

theorem c2_validation_witness :
    onPredictRun
      { animal := "Cow", selected := ["fever", "cough"],
        result := none, error := "", loading := false } (Except.error ()) =
      ({ animal := "Cow", selected := ["fever", "cough"],
         result := none, error := minSymptomsMsg, loading := false }, []) :=
  c2_validation _ _ (by decide)

/-- C3 fails as stated for the `App.jsx` filter: a symptom whose identifier
matches the query but whose combined display label does not is dropped by
`filteredSymptoms`, though the claimed predicate (identifier or label match)
keeps it. -/
theorem c3_counterexample :
    filteredSymptoms [⟨"fever", "x", "Fvr"⟩] "fever" ≠
      specFilter [⟨"fever", "x", "Fvr"⟩] "fever" := by decide

/-- C3 (amended): the `SymptomSelector.jsx` filter is exactly the claimed
filter — the subsequence of the catalog whose identifier or a display label
contains the query case-insensitively, in catalog order, with an empty or
whitespace-only query returning the catalog unchanged.  The `App.jsx`
`filteredSymptoms` memo instead matches only the combined display label. -/
theorem c3_filter_spec (L : List Symptom) (q : String) :
    selectorFiltered L q = specFilter L q ∧
    (selectorFiltered L q).Sublist L ∧
    (strIsEmpty (strToLower (strTrim q)) = true → selectorFiltered L q = L) := by
  refine ⟨?_, ?_, ?_⟩
  · unfold selectorFiltered specFilter claimMatches
    by_cases h : strIsEmpty (strToLower (strTrim q)) = true
    · rw [if_pos h, if_pos h]
    · rw [if_neg h, if_neg h]
      refine List.filter_congr ?_
      intro s _
      cases jsIncludes (strToLower s.display) (strToLower (strTrim q)) <;>
        cases jsIncludes (strToLower s.en) (strToLower (strTrim q)) <;>
        cases jsIncludes (strToLower s.te) (strToLower (strTrim q)) <;> rfl
  · unfold selectorFiltered
    by_cases h : strIsEmpty (strToLower (strTrim q)) = true
    · rw [if_pos h]
    · rw [if_neg h]
      exact List.filter_sublist L
  · intro h
    unfold selectorFiltered
    rw [if_pos h]

theorem c3_filter_spec_witness :
    selectorFiltered [⟨"fever", "x", "Fvr"⟩] "   " = [⟨"fever", "x", "Fvr"⟩] :=
  (c3_filter_spec [⟨"fever", "x", "Fvr"⟩] "   ").2.2 (by decide)

/-- C4: any sequence of toggles starting from the empty selection keeps the
selection's size in [0, 8] and never introduces a duplicate identifier. -/
theorem c4_toggle_invariant (ids : List String) :
    (runToggles ids).length ≤ 8 ∧ (runToggles ids).Nodup :=
  runTogglesFrom_invariant ids [] (by simp) List.nodup_nil

/-- C5: toggling an unselected identifier when 8 symptoms are already chosen
is rejected: the `App.jsx` toggle leaves the selection unchanged and raises
the bounds notice, and the `SymptomSelector.jsx` toggle also leaves the
selection unchanged. -/
theorem c5_toggle_at_max (sel : List String) (i : String)
    (hlen : sel.length = 8) (hmem : i ∉ sel) :
    toggle sel i = (sel, some maxSymptomsMsg) ∧
    selectorToggle false sel i 8 = sel := by
  have hc : ¬ sel.contains i = true := by simpa using hmem
  have hl : 8 ≤ sel.length := le_of_eq hlen.symm
  constructor
  · unfold toggle
    rw [if_neg hc, if_pos hl]
  · unfold selectorToggle
    rw [if_neg Bool.false_ne_true, if_neg hc, if_pos hl]

theorem c5_toggle_at_max_witness :
    toggle ["s1", "s2", "s3", "s4", "s5", "s6", "s7", "s8"] "s9" =
      (["s1", "s2", "s3", "s4", "s5", "s6", "s7", "s8"], some maxSymptomsMsg) ∧
    selectorToggle false ["s1", "s2", "s3", "s4", "s5", "s6", "s7", "s8"] "s9" 8 =
      ["s1", "s2", "s3", "s4", "s5", "s6", "s7", "s8"] :=
  c5_toggle_at_max _ _ (by decide) (by decide)

/-- C6: when the prediction call fails for any reason, `onPredict` ends with
the generic failure message (distinct from both validation messages), a
cleared result, and `loading` back to `false`. -/
theorem c6_predict_failure (s : AppState) (h : 3 ≤ s.selected.length) :
    (onPredictRun s (Except.error ())).1 =
      { s with error := predictFailedMsg, result := none, loading := false } ∧
    predictFailedMsg ≠ minSymptomsMsg ∧ predictFailedMsg ≠ maxSymptomsMsg := by
  have h3 : ¬ (s.selected.length < 3) := Nat.not_lt.mpr h
  exact ⟨by simp [onPredictRun, h3], by decide, by decide⟩

theorem c6_predict_failure_witness :
    (onPredictRun
      { animal := "Cow", selected := ["fever", "cough", "limp"],
        result := some sampleResult, error := "", loading := false }
      (Except.error ())).1 =
      { animal := "Cow", selected := ["fever", "cough", "limp"],
        result := none, error := predictFailedMsg, loading := false } ∧
    predictFailedMsg ≠ minSymptomsMsg ∧ predictFailedMsg ≠ maxSymptomsMsg :=
  c6_predict_failure _ (by decide)

/-- C7: a valid submission (≥ 3 symptoms selected) issues exactly one
request, whose body is the chosen animal, the selected identifiers and
`top_k = 3`, whether the call succeeds or fails (no retry). -/
theorem c7_single_request (s : AppState) (response : Except Unit PredictionResult)
    (h : 3 ≤ s.selected.length) :
    (onPredictRun s response).2 =
      [{ animal := s.animal, symptoms := s.selected, top_k := 3 }] := by
  have h3 : ¬ (s.selected.length < 3) := Nat.not_lt.mpr h
  cases response <;> simp [onPredictRun, h3]

theorem c7_single_request_witness :
    (onPredictRun
      { animal := "Cow", selected := ["fever", "cough", "limp"],
        result := none, error := "", loading := false } (Except.ok sampleResult)).2 =
      [{ animal := "Cow", symptoms := ["fever", "cough", "limp"], top_k := 3 }] :=
  c7_single_request _ _ (by decide)

/-- C8: a 2xx `/symptoms` response whose body lacks the `symptoms` key, is
itself empty, or carries an empty list, loads an empty catalog rather than
failing. -/
theorem c8_empty_catalog (data : Option SymptomsBody)
    (h : data = none ∨ ∃ b, data = some b ∧ (b.symptoms = none ∨ b.symptoms = some [])) :
    getSymptoms data = [] := by
  rcases h with rfl | ⟨b, rfl, hb⟩
  · rfl
  · rcases hb with hb | hb <;> simp [getSymptoms, hb]

theorem c8_empty_catalog_witness :
    getSymptoms (some { symptoms := none }) = [] ∧ getSymptoms none = [] :=
  ⟨c8_empty_catalog _ (Or.inr ⟨{ symptoms := none }, rfl, Or.inl rfl⟩),
   c8_empty_catalog _ (Or.inl rfl)⟩

/-- C9: from any reachable selection (size ≤ 8) containing `i`, toggling `i`
twice (remove then re-add) yields a selection with exactly the same
membership as the original. -/
theorem c9_toggle_retoggle (sel : List String) (i : String)
    (h8 : sel.length ≤ 8) (hmem : i ∈ sel) :
    ∀ x, x ∈ (toggle (toggle sel i).1 i).1 ↔ x ∈ sel := by
  have hc : sel.contains i = true := by simpa using hmem
  have hfil : (toggle sel i).1 = sel.filter (fun x => x != i) := by
    unfold toggle
    rw [if_pos hc]
  have hc2 : ¬ (sel.filter (fun x => x != i)).contains i = true := by simp
  have hlt : (sel.filter (fun x => x != i)).length < sel.length :=
    length_filter_ne_lt sel i hmem
  have hle : ¬ (8 ≤ (sel.filter (fun x => x != i)).length) := by omega
  rw [hfil]
  unfold toggle
  rw [if_neg hc2, if_neg hle]
  intro x
  simp only [List.mem_append, List.mem_filter, List.mem_singleton, bne_iff_ne, ne_eq]
  constructor
  · rintro (⟨hx, _⟩ | rfl)
    · exact hx
    · exact hmem
  · intro hx
    by_cases hxi : x = i
    · exact Or.inr hxi
    · exact Or.inl ⟨hx, hxi⟩

theorem c9_toggle_retoggle_witness :
    "cough" ∈ (toggle (toggle ["fever", "cough", "limp"] "cough").1 "cough").1 ↔
      "cough" ∈ ["fever", "cough", "limp"] :=
  c9_toggle_retoggle ["fever", "cough", "limp"] "cough" (by decide) (by decide) "cough"

/-- C10: the risk badge is classified by ordered case-insensitive substring
tests with an unconditional low fallback — high iff the lowered label
contains "high risk", else medium iff it contains "medium risk", else low
(so the empty label renders as low); `riskColor` analogously returns
"default" when none of "high"/"medium"/"low" occurs. -/
theorem c10_risk_classification (label : String) :
    (jsIncludes (strToLower label) "high risk" = true →
      riskBadgeClass label = "badge badge-high") ∧
    (jsIncludes (strToLower label) "high risk" = false →
      jsIncludes (strToLower label) "medium risk" = true →
      riskBadgeClass label = "badge badge-med") ∧
    (jsIncludes (strToLower label) "high risk" = false →
      jsIncludes (strToLower label) "medium risk" = false →
      riskBadgeClass label = "badge badge-low") ∧
    (jsIncludes (strToLower label) "high" = false →
      jsIncludes (strToLower label) "medium" = false →
      jsIncludes (strToLower label) "low" = false →
      riskColor label = "default") ∧
    riskBadgeClass "" = "badge badge-low" ∧
    riskColor "" = "default" := by
  refine ⟨?_, ?_, ?_, ?_, by decide, by decide⟩
  · intro h1
    simp [riskBadgeClass, h1]
  · intro h1 h2
    simp [riskBadgeClass, h1, h2]
  · intro h1 h2
    simp [riskBadgeClass, h1, h2]
  · intro h1 h2 h3
    simp [riskColor, h1, h2, h3]

theorem c10_risk_classification_witness :
    riskBadgeClass "High Risk / X" = "badge badge-high" ∧
    riskColor "flu" = "default" :=
  ⟨(c10_risk_classification "High Risk / X").1 (by decide),
   (c10_risk_classification "flu").2.2.2.1 (by decide) (by decide) (by decide)⟩
